import Mathlib

/-!
Verification development for the flow2api credential-lifecycle core.

Shallow embedding of `src/services/token_manager.py`,
`src/services/flow_client.py` and
`src/services/browser_captcha_personal.py`.

Conventions of the embedding:
* All timestamps are absolute UTC instants measured in whole seconds and
  represented as `Int` (the Python code compares timezone-aware `datetime`
  values and treats any zoneless timestamp as UTC, so a single absolute
  time line is faithful).
* Outcomes of network calls (`flow_client.st_to_at`, `flow_client.get_credits`)
  and of the browser session-cookie read are oracle parameters: each
  execution of the embedded control flow is indexed by the concrete outcome
  the collaborator returned.
* Exceptions in the Python code become `Except`/`Option` values; a helper
  that swallows every exception becomes a total function.
* Database rows are `Token` records; each `db.update_token(...)` call site
  becomes one `DbWrite` value recording exactly the columns that call site
  passes, so frame properties about writes can be stated.
-/

namespace Flow2API

/-- Account credential record, from the data model used by
`token_manager.py` (the `Token` model itself lives in the persistence
layer, which is not under `src/`).  Modelled from the spec: identity,
`ST`, `AT` plus absolute expiry, error counters (only
`consecutiveErrorCount` drives auto-disable), `isActive`, optional
`(banReason, bannedAt)`, current project reference, credits. -/
structure Token where
  id : Nat
  st : String
  at_ : Option String
  atExpires : Option Int
  isActive : Bool
  banReason : Option String
  bannedAt : Option Int
  errorCount : Nat
  todayErrorCount : Nat
  consecutiveErrorCount : Nat
  credits : Int
  currentProjectId : Option String
  deriving Repr, DecidableEq

/-- One `db.update_token(...)` call, with exactly the columns that call
site passes (`token_manager.py` call sites: the AT refresh write at
line 334 passes `at=` and `at_expires=` together, the probe write at
line 346 passes `credits=`, the ST persist at line 399 passes `st=`,
and `enable_token`/`disable_token` pass `is_active=`). -/
inductive DbWrite where
  | setAtExpiry (a : String) (expiry : Option Int)
  | setCredits (c : Int)
  | setSt (st : String)
  | setActive (b : Bool)
  deriving Repr, DecidableEq

/-- Modelled from the spec: the persistence collaborator's
`updateToken(id, partialFields)` applies exactly the passed columns
(`database.py` is not under `src/`); in particular "`AT` and its expiry
are always replaced together", so a write passing `at_expires=None`
stores the unknown expiry rather than skipping the column. -/
def applyWrite (w : DbWrite) (t : Token) : Token :=
  match w with
  | .setAtExpiry a e => { t with at_ := some a, atExpires := e }
  | .setCredits c => { t with credits := c }
  | .setSt s => { t with st := s }
  | .setActive b => { t with isActive := b }

def applyWrites (ws : List DbWrite) (t : Token) : Token :=
  ws.foldl (fun t w => applyWrite w t) t

/-- Does this write replace the stored AT? -/
def writesAt : DbWrite → Bool
  | .setAtExpiry _ _ => true
  | _ => false

/-- Does this write replace the stored AT expiry instant? -/
def writesExpiry : DbWrite → Bool
  | .setAtExpiry _ _ => true
  | _ => false

/-- Successful payload of `flow_client.st_to_at`: the new access token
and the parsed absolute expiry (`none` when the response carries no
parsable `expires` field, mirroring `new_at_expires = None`). -/
structure StToAtOk where
  accessToken : String
  expires : Option Int
  deriving Repr, DecidableEq

/-- Outcome of the `st_to_at` exchange call (oracle). -/
abbrev StToAtResult := Except String StToAtOk

/-- Outcome of the `get_credits` probe call (oracle): the credit count on
success, the stringified exception otherwise. -/
abbrev CreditsResult := Except String Int

/-- Naive substring search on character lists, used to embed Python's
`"pat" in s`. -/
def containsSub : List Char → List Char → Bool
  | [], pat => pat.isEmpty
  | c :: rest, pat => pat.isPrefixOf (c :: rest) || containsSub rest pat

/-- Python `pat in s` on strings. -/
def strContains (s pat : String) : Bool :=
  containsSub s.data pat.data

/-- `TokenManager._do_refresh_at` (token_manager.py lines 307-365):
exchange the ST for a new AT, store AT and expiry in one update, then
probe with `get_credits`; a probe error containing `"401"` or
`"UNAUTHENTICATED"` means failure, any other probe error still counts
as success.  Returns the reported outcome and the database writes
performed, in order. -/
def doRefreshAt (stRes : StToAtResult) (credRes : CreditsResult) :
    Bool × List DbWrite :=
  match stRes with
  | .error _ => (false, [])
  | .ok r =>
    let w1 := DbWrite.setAtExpiry r.accessToken r.expires
    match credRes with
    | .ok c => (true, [w1, DbWrite.setCredits c])
    | .error e =>
      if strContains e "401" || strContains e "UNAUTHENTICATED" then
        (false, [w1])
      else
        (true, [w1])

/-- Whether `BrowserCaptchaService` defines a `refresh_session_token`
method: it does not — the class in browser_captcha_personal.py (staged
in full, with no base class and no `__getattr__`) has no such method;
the only `refresh_session_token` in the repository is
`FlowClient.refresh_session_token(old_st, email)` (flow_client.py
line 255), on a different class.  Python therefore raises
`AttributeError` at the lookup `service.refresh_session_token`
(token_manager.py line 396). -/
def personalRefreshSessionTokenDefined : Bool := false

/-- `TokenManager._try_refresh_st` (token_manager.py lines 367-411):
only in `personal` mode and with a project id does it reach the
browser call; there the attribute lookup
`service.refresh_session_token` raises `AttributeError` (see
`personalRefreshSessionTokenDefined`), which the blanket
`except Exception` at line 409 turns into `None`.  `browserSt` is the
session cookie the resident browser *would* have produced; the
persist branch below (lines 397-401 of the source) mirrors the staged
code but is unreachable because the lookup raises first. -/
def tryRefreshSt (cfgPersonal : Bool) (t : Token)
    (browserSt : Option String) : Option String × List DbWrite :=
  if !cfgPersonal then
    (none, [])
  else if t.currentProjectId = none then
    (none, [])
  else if !personalRefreshSessionTokenDefined then
    (none, [])
  else
    match browserSt with
    | some s =>
      if s ≠ "" && s ≠ t.st then (some s, [DbWrite.setSt s])
      else (none, [])
    | none => (none, [])

/-- Result of the refresh cascade: reported outcome, database writes in
order, and how many times `_do_refresh_at` ran. -/
structure RefreshResult where
  ok : Bool
  writes : List DbWrite
  attempts : Nat
  deriving Repr, DecidableEq

/-- `TokenManager._refresh_at` (token_manager.py lines 272-305): run the
exchange-and-probe step; on failure try to obtain a fresh ST through the
browser, and if one was persisted retry the exchange-and-probe step
exactly once; if everything failed, disable the token
(`disable_token` writes `is_active=False` only) and report failure.
`st1`/`cred1` are the collaborator outcomes of the first attempt,
`st2`/`cred2` those of the retry (unused when no retry happens). -/
def refreshAt (cfgPersonal : Bool) (t : Token)
    (st1 : StToAtResult) (cred1 : CreditsResult)
    (browserSt : Option String)
    (st2 : StToAtResult) (cred2 : CreditsResult) : RefreshResult :=
  let r1 := doRefreshAt st1 cred1
  if r1.1 then
    ⟨true, r1.2, 1⟩
  else
    let r2 := tryRefreshSt cfgPersonal t browserSt
    match r2.1 with
    | some _ =>
      let r3 := doRefreshAt st2 cred2
      if r3.1 then
        ⟨true, r1.2 ++ r2.2 ++ r3.2, 2⟩
      else
        ⟨false, r1.2 ++ r2.2 ++ r3.2 ++ [DbWrite.setActive false], 2⟩
    | none => ⟨false, r1.2 ++ r2.2 ++ [DbWrite.setActive false], 1⟩

/-- `TokenManager.is_at_valid` (token_manager.py lines 233-269) for an
existing token: valid with no side effect when the AT is present
(non-empty — Python truthiness) and its expiry is known and at least
3600 seconds away; in every other case run the refresh cascade and
report its outcome.  Returns the boolean result and the database writes
performed. -/
def isAtValid (now : Int) (t : Token) (cfgPersonal : Bool)
    (st1 : StToAtResult) (cred1 : CreditsResult)
    (browserSt : Option String)
    (st2 : StToAtResult) (cred2 : CreditsResult) : Bool × List DbWrite :=
  let runCascade : Bool × List DbWrite :=
    let r := refreshAt cfgPersonal t st1 cred1 browserSt st2 cred2
    (r.ok, r.writes)
  match t.at_ with
  | none => runCascade
  | some a =>
    if a = "" then runCascade
    else
      match t.atExpires with
      | none => runCascade
      | some e =>
        if e - now < 3600 then runCascade
        else (true, [])

/-- `TokenManager.ban_token_for_429` (token_manager.py lines 489-501):
one `db.update_token` call passing `is_active=False`,
`ban_reason="429_rate_limit"`, `banned_at=now`. -/
def banFor429 (now : Int) (t : Token) : Token :=
  { t with isActive := false
         , banReason := some "429_rate_limit"
         , bannedAt := some now }

/-- `TokenManager.enable_token` (token_manager.py lines 38-43): set
`is_active=True`, then reset the consecutive error count
(`db.reset_error_count`; modelled from the spec: "`enable` also resets
`consecutiveErrorCount`").  No other column is touched. -/
def enableToken (t : Token) : Token :=
  { t with isActive := true, consecutiveErrorCount := 0 }

/-- `TokenManager.disable_token` (token_manager.py lines 45-47). -/
def disableToken (t : Token) : Token :=
  { t with isActive := false }

/-- `TokenManager.record_success` (token_manager.py lines 481-487):
`db.reset_error_count` — modelled from the spec: "resets
`consecutiveErrorCount` only". -/
def recordSuccess (t : Token) : Token :=
  { t with consecutiveErrorCount := 0 }

/-- `TokenManager.record_error` (token_manager.py lines 466-479):
increment the error counters (`db.increment_token_stats(id, "error")`
— modelled from the spec: "increments error counters"), then disable
the token once the consecutive count has reached the configured
threshold (`ban_reason` untouched). -/
def recordError (threshold : Nat) (t : Token) : Token :=
  let t := { t with errorCount := t.errorCount + 1
                  , todayErrorCount := t.todayErrorCount + 1
                  , consecutiveErrorCount := t.consecutiveErrorCount + 1 }
  if t.consecutiveErrorCount ≥ threshold then
    { t with isActive := false }
  else
    t

/-- Guard of `TokenManager.auto_unban_429_tokens`
(token_manager.py lines 503-560): the token is considered for
reactivation when its ban reason is exactly `"429_rate_limit"`, it is
inactive, it has a recorded ban time at least 12 hours (43200 s) in
the past, and its AT expiry is unknown or strictly in the future. -/
def shouldUnban (now : Int) (t : Token) : Bool :=
  t.banReason = some "429_rate_limit" &&
  !t.isActive &&
  (match t.atExpires with
   | none => true
   | some e => decide (e > now)) &&
  (match t.bannedAt with
   | none => false
   | some b => decide (now - b ≥ 12 * 3600))

/-- Reactivation write of the unban sweep: `is_active=True`,
`ban_reason=None`, `banned_at=None`, then `db.reset_error_count`. -/
def unbanApply (t : Token) : Token :=
  { t with isActive := true
         , banReason := none
         , bannedAt := none
         , consecutiveErrorCount := 0 }

/-- `TokenManager.auto_unban_429_tokens` restricted to one token of the
swept list. -/
def autoUnbanToken (now : Int) (t : Token) : Token :=
  if shouldUnban now t then unbanApply t else t

/-- The hourly unban sweep over the whole token list. -/
def autoUnban429 (now : Int) (ts : List Token) : List Token :=
  ts.map (autoUnbanToken now)

/-- Fields an operator edit may supply to `TokenManager.update_token`
(token_manager.py lines 168-229); `none` means the field was not
provided (Python `None` parameters are skipped). -/
structure EditFields where
  st : Option String
  at_ : Option String
  atExpires : Option Int
  projectId : Option String
  deriving Repr, DecidableEq

/-- `TokenManager.update_token`: apply the provided fields, and when the
current token is rate-limit banned and its AT is not yet expired, also
clear `ban_reason` and `banned_at` in the same update. -/
def updateTokenEdit (now : Int) (f : EditFields) (t : Token) : Token :=
  let t1 := { t with st := f.st.getD t.st
                   , at_ := match f.at_ with
                           | some a => some a
                           | none => t.at_
                   , atExpires := match f.atExpires with
                                  | some e => some e
                                  | none => t.atExpires
                   , currentProjectId := match f.projectId with
                                         | some p => some p
                                         | none => t.currentProjectId }
  if t.banReason = some "429_rate_limit" then
    let isExpired :=
      match t.atExpires with
      | none => false
      | some e => decide (e ≤ now)
    if !isExpired then
      { t1 with banReason := none, bannedAt := none }
    else
      t1
  else
    t1

/-- A freshly registered token (`TokenManager.add_token`, Step 5): active,
no ban state, zero error counters. -/
def newToken (id : Nat) (st a : String) (atExpires : Option Int)
    (credits : Int) (projectId : String) : Token :=
  { id := id, st := st, at_ := some a, atExpires := atExpires
  , isActive := true, banReason := none, bannedAt := none
  , errorCount := 0, todayErrorCount := 0, consecutiveErrorCount := 0
  , credits := credits, currentProjectId := some projectId }

/-- Python `s.lower()`, character by character (the patterns compared
against are ASCII). -/
def strToLower (s : String) : String :=
  ⟨s.data.map Char.toLower⟩

/-- `FlowClient._get_retry_reason` (flow_client.py lines 1199-1208):
lower-case the error text; `"403"`, `"recaptcha evaluation failed"` or
`"recaptcha"` as a substring makes the failure retryable. -/
def getRetryReason (errorStr : String) : Option String :=
  let l := strToLower errorStr
  if strContains l "403" then some "403错误"
  else if strContains l "recaptcha evaluation failed" then some "reCAPTCHA 验证失败"
  else if strContains l "recaptcha" then some "reCAPTCHA 错误"
  else none

/-- What attempt `i` of a generation call would observe: the challenge
acquisition outcome `(token?, browserId)` from
`_get_recaptcha_token`, and the outbound-call outcome were the call
issued. -/
structure AttemptSpec where
  acqToken : Option String
  browserId : Option Nat
  callOutcome : Except String Unit
  deriving Repr

/-- Result of a generation call: normal return, or a raised error. -/
inductive GenOutcome where
  | ok
  | raised (e : String)
  deriving Repr, DecidableEq

/-- Observable side effects of the retry loop: challenge acquisitions,
outbound calls issued, solver handles reported bad
(`_notify_browser_captcha_error`), and `asyncio.sleep(1)` pauses. -/
structure GenStats where
  acquisitions : Nat
  calls : Nat
  notified : List (Option Nat)
  sleeps : Nat
  deriving Repr, DecidableEq

/-- One iteration of the `for retry_attempt in range(max_retries)` loop of
`FlowClient.generate_image` (flow_client.py lines 579-636; the four
video loops and the video-upsample loop are textually identical in
control flow).  `fuel` is the number of loop iterations still
available (`max_retries - retry_attempt`); the guard
`retry_attempt < max_retries - 1` is `fuel - 1 > 0`.  Acquiring no
challenge token raises at once; a retryable failure with iterations
remaining reports the solver handle, sleeps, and loops; any other
failure is re-raised. -/
def genGo (att : Nat → AttemptSpec) :
    Nat → Nat → Option String → GenStats → GenOutcome × GenStats
  | _, 0, last, st => (.raised (last.getD "no attempt"), st)
  | i, fuel + 1, _, st =>
    let a := att i
    let st1 := { st with acquisitions := st.acquisitions + 1 }
    match a.acqToken with
    | none => (.raised "Failed to obtain reCAPTCHA token", st1)
    | some _ =>
      let st2 := { st1 with calls := st1.calls + 1 }
      match a.callOutcome with
      | .ok _ => (.ok, st2)
      | .error e =>
        if (getRetryReason e).isSome && fuel != 0 then
          genGo att (i + 1) fuel (some e)
            { st2 with notified := st2.notified ++ [a.browserId]
                     , sleeps := st2.sleeps + 1 }
        else
          (.raised e, st2)

/-- A whole generation call: `max_retries = 3`, starting with no last
error and empty statistics. -/
def genRun (att : Nat → AttemptSpec) : GenOutcome × GenStats :=
  genGo att 0 3 none ⟨0, 0, [], 0⟩

/-- Parameter count of `BrowserCaptchaService.get_token`
(browser_captcha_personal.py line 314), `self` excluded: `project_id`
only — no defaults, no varargs. -/
def personalGetTokenParamCount : Nat := 1

/-- Positional arguments the facade passes at flow_client.py line 1252:
`service.get_token(project_id, action)`. -/
def personalGetTokenArgCount : Nat := 2

/-- Python raises `TypeError` at call time when the positional-argument
count differs from a signature with no defaults and no varargs. -/
def personalCallRaisesTypeError : Bool :=
  personalGetTokenArgCount ≠ personalGetTokenParamCount

/-- `FlowClient._get_recaptcha_token` in `personal` mode
(flow_client.py lines 1248-1265): every exception from the call into
the resident pool is caught and turned into `(None, None)`.
`poolToken` is what `BrowserCaptchaService.get_token` would return if
the call ever reached its body. -/
def getRecaptchaTokenPersonal (poolToken : Option String) :
    Option String × Option Nat :=
  if personalCallRaisesTypeError then (none, none)
  else (poolToken, none)

/-- Position of a `get_token` coroutine inside
`BrowserCaptchaService.get_token` (browser_captcha_personal.py
lines 314-340): before the `async with self._resident_lock` block,
holding the lock after reading the tab map, inside
`_create_resident_tab` (still holding the lock), or past the guarded
section. -/
inductive TabPhase where
  | start
  | acquired
  | creating
  | done
  deriving Repr, DecidableEq

/-- One in-flight `get_token(projectId)` call. -/
structure PoolTask where
  pid : Nat
  phase : TabPhase
  created : Bool
  deriving Repr, DecidableEq

/-- Interleaving state of the resident pool: who holds
`_resident_lock`, which project ids have a resident tab
(`_resident_tabs`), and the in-flight calls. -/
structure PoolState where
  lock : Option Nat
  tabs : List Nat
  tasks : List PoolTask
  deriving Repr, DecidableEq

/-- Enabled moves of task `i`: acquire the (free) pool-wide lock; read
the map while holding it — a hit releases and leaves the guarded
section, a miss enters `_create_resident_tab` without releasing;
finish creation, insert the tab and release.  Suspension points are
the lock acquisition and the awaits inside creation, matching
cooperative asyncio scheduling. -/
def taskSteps (s : PoolState) (i : Nat) : List PoolState :=
  match s.tasks.get? i with
  | none => []
  | some tk =>
    match tk.phase with
    | .start =>
      if s.lock = none then
        [{ s with lock := some i
                , tasks := s.tasks.set i { tk with phase := .acquired } }]
      else []
    | .acquired =>
      if s.lock = some i then
        if s.tabs.contains tk.pid then
          [{ s with lock := none
                  , tasks := s.tasks.set i { tk with phase := .done } }]
        else
          [{ s with tasks := s.tasks.set i { tk with phase := .creating } }]
      else []
    | .creating =>
      if s.lock = some i then
        [{ s with lock := none
                , tabs := s.tabs ++ [tk.pid]
                , tasks := s.tasks.set i
                    { tk with phase := .done, created := true } }]
      else []
    | .done => []

/-- All successor states under any task's next move. -/
def poolSteps (s : PoolState) : List PoolState :=
  (List.range s.tasks.length).flatMap (taskSteps s)

/-- Reachable-state closure with step budget `n`. -/
def poolClosure : Nat → List PoolState → List PoolState
  | 0, acc => acc
  | n + 1, acc =>
    let next := (acc.flatMap poolSteps).filter (fun s => !acc.contains s)
    if next.isEmpty then acc else poolClosure n (acc ++ next.dedup)

/-- All in-flight calls have completed. -/
def allDone (s : PoolState) : Bool :=
  s.tasks.all (fun tk => tk.phase = TabPhase.done)

/-- How many of the in-flight calls created a session for project `p`. -/
def createdCount (s : PoolState) (p : Nat) : Nat :=
  (s.tasks.filter (fun tk => tk.created && tk.pid == p)).length

/-- Two concurrent `get_token` calls for the same project (`1`), no
existing session. -/
def poolInitSame : PoolState :=
  { lock := none, tabs := [], tasks := [⟨1, .start, false⟩, ⟨1, .start, false⟩] }

/-- Concurrent `get_token` calls for two different projects, no existing
sessions. -/
def poolInitDiff : PoolState :=
  { lock := none, tabs := [], tasks := [⟨1, .start, false⟩, ⟨2, .start, false⟩] }

/-- The state in which task 0 is inside `_create_resident_tab` for
project 1 while holding the pool-wide lock, and the project-2 call has
not started its guarded section. -/
def poolBlockedState : PoolState :=
  { lock := some 0, tabs := []
  , tasks := [⟨1, .creating, false⟩, ⟨2, .start, false⟩] }

/-- The spec's token invariant: a non-null `banReason` implies the token
is inactive. -/
def Inv (t : Token) : Prop := t.banReason ≠ none → t.isActive = false

instance (t : Token) : Decidable (Inv t) := by
  unfold Inv
  infer_instance

/-- A write is benign for the invariant when it is not `setActive true`. -/
def benignWrite : DbWrite → Bool
  | .setActive b => !b
  | _ => true

/-- Does this write replace the stored ST? -/
def touchesSt : DbWrite → Bool
  | .setSt _ => true
  | _ => false

theorem applyWrite_banReason (w : DbWrite) (t : Token) :
    (applyWrite w t).banReason = t.banReason := by
  cases w <;> rfl

theorem applyWrites_banReason (ws : List DbWrite) (t : Token) :
    (applyWrites ws t).banReason = t.banReason := by
  induction ws generalizing t with
  | nil => rfl
  | cons w ws ih =>
    calc (applyWrites (w :: ws) t).banReason
        = (applyWrites ws (applyWrite w t)).banReason := rfl
      _ = (applyWrite w t).banReason := ih (applyWrite w t)
      _ = t.banReason := applyWrite_banReason w t

theorem applyWrites_append (ws₁ ws₂ : List DbWrite) (t : Token) :
    applyWrites (ws₁ ++ ws₂) t = applyWrites ws₂ (applyWrites ws₁ t) := by
  simp [applyWrites, List.foldl_append]

theorem applyWrite_st (w : DbWrite) (t : Token) (hw : touchesSt w = false) :
    (applyWrite w t).st = t.st := by
  cases w <;> simp_all [touchesSt, applyWrite]

theorem applyWrites_st (ws : List DbWrite) (t : Token)
    (hw : ∀ w ∈ ws, touchesSt w = false) :
    (applyWrites ws t).st = t.st := by
  induction ws generalizing t with
  | nil => rfl
  | cons w ws ih =>
    have h1 := hw w (List.mem_cons_self _ _)
    have h2 : ∀ w' ∈ ws, touchesSt w' = false :=
      fun w' hm => hw w' (List.mem_cons_of_mem _ hm)
    calc (applyWrites (w :: ws) t).st
        = (applyWrites ws (applyWrite w t)).st := rfl
      _ = (applyWrite w t).st := ih (applyWrite w t) h2
      _ = t.st := applyWrite_st w t h1

theorem applyWrite_inv (w : DbWrite) (t : Token)
    (hw : benignWrite w = true) (h : Inv t) : Inv (applyWrite w t) := by
  cases w with
  | setAtExpiry a e => exact fun hb => h hb
  | setCredits c => exact fun hb => h hb
  | setSt s => exact fun hb => h hb
  | setActive b =>
    cases b with
    | false => exact fun _ => rfl
    | true => simp [benignWrite] at hw

theorem applyWrites_inv (ws : List DbWrite) (t : Token)
    (hw : ∀ w ∈ ws, benignWrite w = true) (h : Inv t) :
    Inv (applyWrites ws t) := by
  induction ws generalizing t with
  | nil => exact h
  | cons w ws ih =>
    have h1 := hw w (List.mem_cons_self _ _)
    have h2 : ∀ w' ∈ ws, benignWrite w' = true :=
      fun w' hm => hw w' (List.mem_cons_of_mem _ hm)
    exact ih (applyWrite w t) h2 (applyWrite_inv w t h1 h)

theorem doRefreshAt_benign (s : StToAtResult) (c : CreditsResult) :
    ∀ w ∈ (doRefreshAt s c).2, benignWrite w = true := by
  intro w hw
  cases s with
  | error e => simp [doRefreshAt] at hw
  | ok r =>
    cases c with
    | ok cr =>
      simp [doRefreshAt] at hw
      rcases hw with h | h <;> simp [h, benignWrite]
    | error e =>
      simp only [doRefreshAt] at hw
      split at hw <;> simp at hw <;> simp [hw, benignWrite]

theorem doRefreshAt_noSt (s : StToAtResult) (c : CreditsResult) :
    ∀ w ∈ (doRefreshAt s c).2, touchesSt w = false := by
  intro w hw
  cases s with
  | error e => simp [doRefreshAt] at hw
  | ok r =>
    cases c with
    | ok cr =>
      simp [doRefreshAt] at hw
      rcases hw with h | h <;> simp [h, touchesSt]
    | error e =>
      simp only [doRefreshAt] at hw
      split at hw <;> simp at hw <;> simp [hw, touchesSt]

theorem tryRefreshSt_benign (cfg : Bool) (t : Token) (b : Option String) :
    ∀ w ∈ (tryRefreshSt cfg t b).2, benignWrite w = true := by
  intro w hw
  simp [tryRefreshSt, personalRefreshSessionTokenDefined] at hw

theorem refreshAt_benign (cfg : Bool) (t : Token) (st1 : StToAtResult)
    (cred1 : CreditsResult) (bSt : Option String) (st2 : StToAtResult)
    (cred2 : CreditsResult) :
    ∀ w ∈ (refreshAt cfg t st1 cred1 bSt st2 cred2).writes,
      benignWrite w = true := by
  intro w hw
  simp only [refreshAt] at hw
  by_cases h1 : (doRefreshAt st1 cred1).1 = true
  · simp only [h1, if_true] at hw
    exact doRefreshAt_benign st1 cred1 w hw
  · simp only [h1, if_false] at hw
    rcases h2 : (tryRefreshSt cfg t bSt).1 with _ | s
    · simp [h2, List.mem_append] at hw
      rcases hw with h | h | h
      · exact doRefreshAt_benign st1 cred1 w h
      · exact tryRefreshSt_benign cfg t bSt w h
      · simp [h, benignWrite]
    · simp only [h2] at hw
      by_cases h3 : (doRefreshAt st2 cred2).1 = true
      · simp [h3, List.mem_append] at hw
        rcases hw with h | h | h
        · exact doRefreshAt_benign st1 cred1 w h
        · exact tryRefreshSt_benign cfg t bSt w h
        · exact doRefreshAt_benign st2 cred2 w h
      · simp [h3, List.mem_append] at hw
        rcases hw with h | h | h | h
        · exact doRefreshAt_benign st1 cred1 w h
        · exact tryRefreshSt_benign cfg t bSt w h
        · exact doRefreshAt_benign st2 cred2 w h
        · simp [h, benignWrite]

/-- One lifecycle operation on a token, each embedding the corresponding
`TokenManager` method (oracle outcomes of collaborator calls are carried
as arguments). -/
inductive LifecycleOp where
  | update (now : Int) (f : EditFields)
  | refresh (cfgPersonal : Bool) (st1 : StToAtResult) (cred1 : CreditsResult)
      (browserSt : Option String) (st2 : StToAtResult) (cred2 : CreditsResult)
  | recordErr (threshold : Nat)
  | recordSucc
  | ban429 (now : Int)
  | unbanSweep (now : Int)
  | enable
  | disable

def LifecycleOp.isEnable : LifecycleOp → Bool
  | .enable => true
  | _ => false

/-- Effect of a lifecycle operation on the token's row. -/
def applyOp : LifecycleOp → Token → Token
  | .update now f, t => updateTokenEdit now f t
  | .refresh cfg st1 cred1 bSt st2 cred2, t =>
    applyWrites (refreshAt cfg t st1 cred1 bSt st2 cred2).writes t
  | .recordErr th, t => recordError th t
  | .recordSucc, t => recordSuccess t
  | .ban429 now, t => banFor429 now t
  | .unbanSweep now, t => autoUnbanToken now t
  | .enable, t => enableToken t
  | .disable, t => disableToken t

/-- A concrete freshly registered token used by closed instances. -/
def tok0 : Token := newToken 1 "st0" "at0" (some 10000) 100 "p1"

/-- C1 counterexample: from a freshly added token, the sequence
`banForRateLimit; enable` yields `banReason = "429_rate_limit"` with
`isActive = true` — `enable_token` (token_manager.py lines 38-43) sets
`is_active=True` without clearing the ban columns, so the claimed
invariant is not preserved by `enable` on a rate-limit-banned token. -/
theorem C1_counterexample :
    ¬ Inv (applyOp .enable (applyOp (.ban429 0) tok0)) := by
  decide

/-- C1 (amended): a freshly added token satisfies
`banReason ≠ null → isActive = false`, and the invariant is preserved
by update, refresh, recordError, recordSuccess, banForRateLimit,
scheduledUnban and disable; `enable` preserves it only when the token
carries no ban reason — applied to a rate-limit-banned token it
violates it, per the counterexample. -/
theorem C1_inv_preserved (t : Token) (op : LifecycleOp) (hInv : Inv t)
    (hEn : op.isEnable = true → t.banReason = none) :
    Inv (applyOp op t) := by
  cases op with
  | update now f =>
    have hact : (updateTokenEdit now f t).isActive = t.isActive := by
      simp only [updateTokenEdit]
      split
      · split <;> rfl
      · rfl
    have hban : (updateTokenEdit now f t).banReason = none ∨
        (updateTokenEdit now f t).banReason = t.banReason := by
      simp only [updateTokenEdit]
      split
      · split
        · exact Or.inl rfl
        · exact Or.inr rfl
      · exact Or.inr rfl
    intro hb
    simp only [applyOp] at hb ⊢
    rcases hban with h | h
    · rw [h] at hb
      exact absurd rfl hb
    · rw [h] at hb
      rw [hact]
      exact hInv hb
  | refresh cfg st1 cred1 bSt st2 cred2 =>
    exact applyWrites_inv _ t
      (refreshAt_benign cfg t st1 cred1 bSt st2 cred2) hInv
  | recordErr th =>
    intro hb
    simp only [applyOp, recordError] at hb ⊢
    by_cases h : t.consecutiveErrorCount + 1 ≥ th
    · simp [h] at hb ⊢
    · simp [h] at hb ⊢
      exact hInv hb
  | recordSucc =>
    intro hb
    exact hInv hb
  | ban429 now =>
    intro _
    rfl
  | unbanSweep now =>
    intro hb
    simp only [applyOp, autoUnbanToken] at hb ⊢
    by_cases h : shouldUnban now t = true
    · simp [h, unbanApply] at hb ⊢
    · simp [h] at hb ⊢
      exact hInv hb
  | enable =>
    intro hb
    exact absurd (hEn rfl) hb
  | disable =>
    intro _
    rfl

/-- C1 witness: the amended preservation theorem applied at a concrete
token and operation. -/
theorem C1_witness : Inv (applyOp (LifecycleOp.ban429 5) tok0) :=
  C1_inv_preserved tok0 (LifecycleOp.ban429 5) (by decide) (by decide)

/-- Token of the concrete C2 scenario: banned at `T = 0` for a rate
limit, AT expiring at `T + 20h = 72000 s`, with a non-zero consecutive
error count. -/
def tokenC2 : Token :=
  { id := 2, st := "st", at_ := some "a", atExpires := some 72000
  , isActive := false, banReason := some "429_rate_limit"
  , bannedAt := some 0, errorCount := 3, todayErrorCount := 2
  , consecutiveErrorCount := 7, credits := 10
  , currentProjectId := some "p" }

/-- C2: the hourly unban sweep reactivates exactly the inactive,
rate-limit-banned tokens whose recorded ban time is at least 12 hours
past and whose AT expiry is unknown or in the future — setting
`isActive`, clearing `banReason`/`bannedAt` and resetting the
consecutive error count — and leaves every other token unchanged; in
particular the token banned at `T` with AT expiring at `T+20h` is
still banned at `T+11h59m` and reactivated with a zero consecutive
error count at `T+12h01m`. -/
theorem C2_auto_unban (now b : Int) (t : Token) :
    (t.isActive = false → t.banReason = some "429_rate_limit" →
      t.bannedAt = some b → 12 * 3600 ≤ now - b →
      (t.atExpires = none ∨ ∃ e, t.atExpires = some e ∧ now < e) →
      autoUnbanToken now t =
        { t with isActive := true, banReason := none, bannedAt := none
               , consecutiveErrorCount := 0 }) ∧
    (t.banReason = none → autoUnbanToken now t = t) ∧
    (t.isActive = true → autoUnbanToken now t = t) ∧
    ((∃ e, t.atExpires = some e ∧ e ≤ now) → autoUnbanToken now t = t) ∧
    (t.bannedAt = some b → now - b < 12 * 3600 → autoUnbanToken now t = t) ∧
    (autoUnban429 now [t] = [autoUnbanToken now t]) ∧
    (autoUnbanToken 43140 tokenC2 = tokenC2) ∧
    (autoUnbanToken 43260 tokenC2 =
      { tokenC2 with isActive := true, banReason := none, bannedAt := none
                   , consecutiveErrorCount := 0 }) := by
  refine ⟨?_, ?_, ?_, ?_, ?_, rfl, by decide, by decide⟩
  · intro h1 h2 h3 h4 h5
    have hs : shouldUnban now t = true := by
      rcases h5 with h5 | ⟨e, he, hlt⟩ <;> simp_all [shouldUnban]
    simp [autoUnbanToken, hs, unbanApply]
  · intro h
    have hs : shouldUnban now t = false := by
      simp [shouldUnban, h]
    simp [autoUnbanToken, hs]
  · intro h
    have hs : shouldUnban now t = false := by
      simp [shouldUnban, h]
    simp [autoUnbanToken, hs]
  · rintro ⟨e, he, hle⟩
    have hs : shouldUnban now t = false := by
      simp [shouldUnban, he]
      intro _ _
      omega
    simp [autoUnbanToken, hs]
  · intro h3 hlt
    have hs : shouldUnban now t = false := by
      simp [shouldUnban, h3]
      intro _ _
      omega
    simp [autoUnbanToken, hs]

/-- C2 witness: the reactivation branch applied at the concrete scenario
token, 12h01m after the ban. -/
theorem C2_witness :
    autoUnbanToken 43260 tokenC2 =
      { tokenC2 with isActive := true, banReason := none, bannedAt := none
                   , consecutiveErrorCount := 0 } :=
  (C2_auto_unban 43260 0 tokenC2).1 rfl rfl rfl (by decide)
    (Or.inr ⟨72000, rfl, by decide⟩)

/-- C6 counterexample: applying `ban_token_for_429` a second time, one
second later, to an already rate-limit-banned token does not leave the
state identical — `bannedAt` is overwritten with the later time. -/
theorem C6_counterexample :
    banFor429 1 (banFor429 0 tok0) ≠ banFor429 0 tok0 := by
  decide

/-- C6 (amended): `banForRateLimit` sets `isActive = false`,
`banReason = "429_rate_limit"` and `bannedAt` to the current time; a
second application leaves `isActive` and `banReason` unchanged but
overwrites `bannedAt` with the second call's time — the resulting state
equals that of a single application at the second time, so the
operation is idempotent only when both applications carry the same
timestamp. -/
theorem C6_ban_for_429 (t : Token) (n1 n2 : Int) :
    (banFor429 n1 t).isActive = false ∧
    (banFor429 n1 t).banReason = some "429_rate_limit" ∧
    (banFor429 n1 t).bannedAt = some n1 ∧
    banFor429 n2 (banFor429 n1 t) = banFor429 n2 t ∧
    banFor429 n1 (banFor429 n1 t) = banFor429 n1 t :=
  ⟨rfl, rfl, rfl, rfl, rfl⟩

theorem applyWrites_last_setActive (ws : List DbWrite) (t : Token) :
    (applyWrites (ws ++ [DbWrite.setActive false]) t).isActive = false := by
  rw [applyWrites_append]
  rfl

/-- C7: in every execution of the refresh cascade, each database write
either replaces the AT together with its expiry instant in one single
update or touches neither of the pair; and an execution that succeeds
through the exchange-and-probe step alone performs no ST write, leaving
the stored ST unchanged. -/
theorem C7_frame (cfg : Bool) (t : Token) (st1 : StToAtResult)
    (cred1 : CreditsResult) (bSt : Option String) (st2 : StToAtResult)
    (cred2 : CreditsResult) :
    (∀ w ∈ (refreshAt cfg t st1 cred1 bSt st2 cred2).writes,
        writesAt w = writesExpiry w) ∧
    ((doRefreshAt st1 cred1).1 = true →
      (refreshAt cfg t st1 cred1 bSt st2 cred2).ok = true ∧
      (∀ w ∈ (refreshAt cfg t st1 cred1 bSt st2 cred2).writes,
          touchesSt w = false) ∧
      (applyWrites (refreshAt cfg t st1 cred1 bSt st2 cred2).writes t).st
        = t.st) := by
  constructor
  · intro w _
    cases w <;> rfl
  · intro h1
    have hwr : (refreshAt cfg t st1 cred1 bSt st2 cred2).writes
        = (doRefreshAt st1 cred1).2 := by
      simp [refreshAt, h1]
    refine ⟨by simp [refreshAt, h1], ?_, ?_⟩
    · rw [hwr]
      exact doRefreshAt_noSt st1 cred1
    · rw [hwr]
      exact applyWrites_st _ t (doRefreshAt_noSt st1 cred1)

/-- C7 witness: a refresh whose exchange and probe both succeed reports
success and leaves the stored ST unchanged. -/
theorem C7_witness :
    (refreshAt true tok0 (Except.ok ⟨"newAt", some 9999⟩) (Except.ok 5)
      none (Except.error "x") (Except.ok 0)).ok = true ∧
    (applyWrites (refreshAt true tok0 (Except.ok ⟨"newAt", some 9999⟩)
      (Except.ok 5) none (Except.error "x") (Except.ok 0)).writes
      tok0).st = tok0.st := by
  have h := C7_frame true tok0 (Except.ok ⟨"newAt", some 9999⟩)
    (Except.ok 5) none (Except.error "x") (Except.ok 0)
  have h2 := h.2 (by decide)
  exact ⟨h2.1, h2.2.2⟩

/-- C8: in the verification step of the refresh cascade, a successful
probe yields refresh success; a probe failure whose error text contains
"401" or "UNAUTHENTICATED" makes the refresh attempt report failure
(ST considered stale); a probe failure with any other error text is
still treated as refresh success. -/
theorem C8_probe_classification (r : StToAtOk) (c : Int) (e : String) :
    (doRefreshAt (Except.ok r) (Except.ok c)).1 = true ∧
    ((strContains e "401" || strContains e "UNAUTHENTICATED") = true →
      (doRefreshAt (Except.ok r) (Except.error e)).1 = false) ∧
    ((strContains e "401" || strContains e "UNAUTHENTICATED") = false →
      (doRefreshAt (Except.ok r) (Except.error e)).1 = true) := by
  refine ⟨rfl, ?_, ?_⟩ <;> intro h <;> simp [doRefreshAt, h]

/-- C8 witness: a 401 probe failure reports refresh failure, an
unrelated probe failure reports refresh success. -/
theorem C8_witness :
    (doRefreshAt (Except.ok ⟨"a", none⟩)
      (Except.error "HTTP Error 401: x")).1 = false ∧
    (doRefreshAt (Except.ok ⟨"a", none⟩)
      (Except.error "timeout")).1 = true :=
  ⟨(C8_probe_classification ⟨"a", none⟩ 0 "HTTP Error 401: x").2.1 (by decide),
   (C8_probe_classification ⟨"a", none⟩ 0 "timeout").2.2 (by decide)⟩

/-- C9 (code bug): `_try_refresh_st` never returns an ST — for every
configuration, token, and session cookie the resident browser would
have produced, the attribute lookup `service.refresh_session_token`
raises `AttributeError` (the staged `BrowserCaptchaService` defines no
such method), the blanket handler swallows it, and the function
returns `None` with no write.  Consequently, at the concrete failing
input — personal mode, a token with a project id, a failing first
exchange-and-probe attempt, a fresh browser cookie `"fresh-st"`
different from the stored ST, and retry oracles that would succeed —
the cascade persists nothing, runs the exchange-and-probe step exactly
once instead of retrying, reports failure, and disables the token:
the obtain/persist/retry step claimed by the spec (and documented in
the method's own docstring) is unreachable in the program. -/
theorem C9_st_refresh_broken :
    (∀ (cfg : Bool) (t : Token) (bSt : Option String),
      tryRefreshSt cfg t bSt = (none, [])) ∧
    (refreshAt true tok0 (Except.error "ex") (Except.ok 0)
      (some "fresh-st") (Except.ok ⟨"newAt", some 9999⟩)
      (Except.ok 5)).attempts = 1 ∧
    (refreshAt true tok0 (Except.error "ex") (Except.ok 0)
      (some "fresh-st") (Except.ok ⟨"newAt", some 9999⟩)
      (Except.ok 5)).ok = false ∧
    ((refreshAt true tok0 (Except.error "ex") (Except.ok 0)
      (some "fresh-st") (Except.ok ⟨"newAt", some 9999⟩)
      (Except.ok 5)).writes.all (fun w => !touchesSt w)) = true ∧
    (applyWrites (refreshAt true tok0 (Except.error "ex") (Except.ok 0)
      (some "fresh-st") (Except.ok ⟨"newAt", some 9999⟩)
      (Except.ok 5)).writes tok0).isActive = false ∧
    (applyWrites (refreshAt true tok0 (Except.error "ex") (Except.ok 0)
      (some "fresh-st") (Except.ok ⟨"newAt", some 9999⟩)
      (Except.ok 5)).writes tok0).banReason = none := by
  refine ⟨?_, by decide, by decide, by decide, by decide, by decide⟩
  intro cfg t bSt
  unfold tryRefreshSt
  split
  · rfl
  · split
    · rfl
    · rfl

/-- Token of the C4 boundary counterexample: AT present, expiry exactly
3600 seconds away. -/
def tokC4 : Token :=
  { id := 4, st := "st", at_ := some "a", atExpires := some 3600
  , isActive := true, banReason := none, bannedAt := none
  , errorCount := 0, todayErrorCount := 0, consecutiveErrorCount := 0
  , credits := 0, currentProjectId := some "p" }

/-- C4 counterexample: with exactly 3600 seconds — "1 hour or less"
remaining, per the claim — `is_at_valid` performs no refresh and
returns `true`, although the refresh cascade it allegedly runs would
have reported `false`: the code's guard is strictly
`time_until_expiry < 3600`, not `≤`. -/
theorem C4_counterexample :
    isAtValid 0 tokC4 true (Except.error "ex") (Except.ok 0) none
        (Except.error "ex") (Except.ok 0) = (true, []) ∧
    (refreshAt true tokC4 (Except.error "ex") (Except.ok 0) none
        (Except.error "ex") (Except.ok 0)).ok = false ∧
    tokC4.atExpires = some 3600 ∧ (3600 : Int) - 0 ≤ 3600 := by
  decide

/-- C4 (amended): for an existing token, `isCredentialValid` returns
`true` with no database write whenever the AT is present (non-empty)
and its expiry is known and at least one hour away; when the AT is
missing or empty, the expiry is unknown, or strictly less than one
hour remains, it runs the refresh cascade and returns that cascade's
outcome; the embedded function is total, so no execution raises. -/
theorem C4_is_at_valid (now : Int) (t : Token) (cfg : Bool)
    (st1 : StToAtResult) (cred1 : CreditsResult) (bSt : Option String)
    (st2 : StToAtResult) (cred2 : CreditsResult) :
    (∀ a e, t.at_ = some a → a ≠ "" → t.atExpires = some e →
      3600 ≤ e - now →
      isAtValid now t cfg st1 cred1 bSt st2 cred2 = (true, [])) ∧
    (∀ a e, t.at_ = some a → a ≠ "" → t.atExpires = some e →
      e - now < 3600 →
      isAtValid now t cfg st1 cred1 bSt st2 cred2 =
        ((refreshAt cfg t st1 cred1 bSt st2 cred2).ok,
         (refreshAt cfg t st1 cred1 bSt st2 cred2).writes)) ∧
    (t.at_ = none ∨ t.at_ = some "" →
      isAtValid now t cfg st1 cred1 bSt st2 cred2 =
        ((refreshAt cfg t st1 cred1 bSt st2 cred2).ok,
         (refreshAt cfg t st1 cred1 bSt st2 cred2).writes)) ∧
    (∀ a, t.at_ = some a → a ≠ "" → t.atExpires = none →
      isAtValid now t cfg st1 cred1 bSt st2 cred2 =
        ((refreshAt cfg t st1 cred1 bSt st2 cred2).ok,
         (refreshAt cfg t st1 cred1 bSt st2 cred2).writes)) := by
  refine ⟨?_, ?_, ?_, ?_⟩
  · intro a e ha hne he hge
    simp only [isAtValid, ha, he]
    rw [if_neg hne, if_neg (by omega)]
  · intro a e ha hne he hlt
    simp only [isAtValid, ha, he]
    rw [if_neg hne, if_pos (by omega)]
  · intro h
    rcases h with h | h <;> simp [isAtValid, h]
  · intro a ha hne hno
    simp only [isAtValid, ha, hno]
    rw [if_neg hne]

/-- C4 witness: the no-refresh branch applied at a token whose AT has
two hours of validity left. -/
theorem C4_witness :
    isAtValid 0 { tokC4 with atExpires := some 7200 } true
      (Except.error "ex") (Except.ok 0) none (Except.error "ex")
      (Except.ok 0) = (true, []) :=
  (C4_is_at_valid 0 { tokC4 with atExpires := some 7200 } true
    (Except.error "ex") (Except.ok 0) none (Except.error "ex")
    (Except.ok 0)).1 "a" 7200 rfl (by decide) rfl (by decide)

theorem genGo_noToken (att : Nat → AttemptSpec) (i fuel : Nat)
    (last : Option String) (st : GenStats)
    (htok : (att i).acqToken = none) :
    genGo att i (fuel + 1) last st =
      (.raised "Failed to obtain reCAPTCHA token",
       { st with acquisitions := st.acquisitions + 1 }) := by
  simp [genGo, htok]

theorem genGo_bounds (att : Nat → AttemptSpec) :
    ∀ fuel i last st, (genGo att i fuel last st).2.calls ≤ st.calls + fuel ∧
      (genGo att i fuel last st).2.acquisitions ≤ st.acquisitions + fuel := by
  intro fuel
  induction fuel with
  | zero =>
    intro i last st
    exact ⟨Nat.le_refl _, Nat.le_refl _⟩
  | succ fuel ih =>
    intro i last st
    cases htok : (att i).acqToken with
    | none =>
      rw [genGo_noToken att i fuel last st htok]
      exact ⟨by simp, by simp⟩
    | some tk =>
      cases hout : (att i).callOutcome with
      | ok u =>
        have hstep : genGo att i (fuel + 1) last st =
            (.ok, { acquisitions := st.acquisitions + 1
                  , calls := st.calls + 1
                  , notified := st.notified, sleeps := st.sleeps }) := by
          simp [genGo, htok, hout]
        rw [hstep]
        exact ⟨by simp, by simp⟩
      | error e =>
        by_cases hr : (getRetryReason e).isSome = true
        · by_cases hf : fuel = 0
          · subst hf
            have hstep : genGo att i (0 + 1) last st =
                (.raised e, { acquisitions := st.acquisitions + 1
                            , calls := st.calls + 1
                            , notified := st.notified
                            , sleeps := st.sleeps }) := by
              simp [genGo, htok, hout, hr]
            rw [hstep]
            exact ⟨by simp, by simp⟩
          · have hstep : genGo att i (fuel + 1) last st
                = genGo att (i + 1) fuel (some e)
                    { acquisitions := st.acquisitions + 1
                    , calls := st.calls + 1
                    , notified := st.notified ++ [(att i).browserId]
                    , sleeps := st.sleeps + 1 } := by
              simp [genGo, htok, hout, hr, hf]
            rw [hstep]
            have h := ih (i + 1) (some e)
              { acquisitions := st.acquisitions + 1
              , calls := st.calls + 1
              , notified := st.notified ++ [(att i).browserId]
              , sleeps := st.sleeps + 1 }
            simp only [] at h
            refine ⟨?_, ?_⟩ <;>
            · have h1 := h.1
              have h2 := h.2
              omega
        · have hstep : genGo att i (fuel + 1) last st =
              (.raised e, { acquisitions := st.acquisitions + 1
                          , calls := st.calls + 1
                          , notified := st.notified
                          , sleeps := st.sleeps }) := by
            simp [genGo, htok, hout, hr]
          rw [hstep]
          exact ⟨by simp, by simp⟩

/-- C3: a generation call makes at most three attempts (at most three
challenge acquisitions and three outbound calls); an attempt whose
acquisition yields no token raises the no-token error at once without
an outbound call; three consecutive retryable failures (error text
containing "403" or a challenge-related phrase) re-raise the last
error after reporting the first two solver handles bad and sleeping
twice; a first failure whose text matches neither pattern is re-raised
immediately; a first success returns at once; and a retryable failure
followed by an empty acquisition raises the no-token error on the
second attempt. -/
theorem C3_retry_protocol (att : Nat → AttemptSpec)
    (t0 t1 t2 e0 e1 e2 : String) (b0 b1 b2 : Option Nat) :
    ((genRun att).2.calls ≤ 3 ∧ (genRun att).2.acquisitions ≤ 3) ∧
    ((att 0).acqToken = none →
      genRun att =
        (.raised "Failed to obtain reCAPTCHA token", ⟨1, 0, [], 0⟩)) ∧
    (att 0 = ⟨some t0, b0, Except.error e0⟩ →
     att 1 = ⟨some t1, b1, Except.error e1⟩ →
     att 2 = ⟨some t2, b2, Except.error e2⟩ →
     (getRetryReason e0).isSome = true →
     (getRetryReason e1).isSome = true →
     (getRetryReason e2).isSome = true →
      genRun att = (.raised e2, ⟨3, 3, [b0, b1], 2⟩)) ∧
    (att 0 = ⟨some t0, b0, Except.error e0⟩ → getRetryReason e0 = none →
      genRun att = (.raised e0, ⟨1, 1, [], 0⟩)) ∧
    (att 0 = ⟨some t0, b0, Except.ok ()⟩ →
      genRun att = (.ok, ⟨1, 1, [], 0⟩)) ∧
    (att 0 = ⟨some t0, b0, Except.error e0⟩ →
     (getRetryReason e0).isSome = true → (att 1).acqToken = none →
      genRun att =
        (.raised "Failed to obtain reCAPTCHA token", ⟨2, 1, [b0], 1⟩)) := by
  refine ⟨?_, ?_, ?_, ?_, ?_, ?_⟩
  · have h := genGo_bounds att 3 0 none ⟨0, 0, [], 0⟩
    exact ⟨h.1, h.2⟩
  · intro h
    show genGo att 0 (0 + 1 + 1 + 1) none ⟨0, 0, [], 0⟩ = _
    simp [genGo, h]
  · intro h0 h1 h2 r0 r1 r2
    show genGo att 0 (0 + 1 + 1 + 1) none ⟨0, 0, [], 0⟩ = _
    simp [genGo, h0, h1, h2, r0, r1, r2]
  · intro h0 hr
    show genGo att 0 (0 + 1 + 1 + 1) none ⟨0, 0, [], 0⟩ = _
    simp [genGo, h0, hr]
  · intro h0
    show genGo att 0 (0 + 1 + 1 + 1) none ⟨0, 0, [], 0⟩ = _
    simp [genGo, h0]
  · intro h0 r0 h1
    show genGo att 0 (0 + 1 + 1 + 1) none ⟨0, 0, [], 0⟩ = _
    simp [genGo, h0, r0, h1]

/-- C3 witness: three retryable (403) failures re-raise the last error
with two solver-bad reports and two sleeps. -/
theorem C3_witness :
    genRun (fun i => ⟨some "tk", some i, Except.error "403 err"⟩) =
      (.raised "403 err", ⟨3, 3, [some 0, some 1], 2⟩) :=
  (C3_retry_protocol (fun i => ⟨some "tk", some i, Except.error "403 err"⟩)
    "tk" "tk" "tk" "403 err" "403 err" "403 err" (some 0) (some 1)
    (some 2)).2.2.1 rfl rfl rfl (by decide) (by decide) (by decide)

/-- C5: with the `personal` challenge backend, the facade passes two
positional arguments to the pool's one-parameter `get_token`, so the
call raises `TypeError`, the blanket `except Exception` handler
swallows it, and `_get_recaptcha_token` returns `(None, None)` no
matter what the pool would have produced; consequently a generation
call in personal mode raises the no-token error on its first attempt
with no outbound call, never exercising the resident pool's token path
through this facade. -/
theorem C5_personal_mode_broken (poolToken : Option String) :
    personalCallRaisesTypeError = true ∧
    getRecaptchaTokenPersonal poolToken = (none, none) ∧
    genRun (fun _ => ⟨(getRecaptchaTokenPersonal poolToken).1,
        (getRecaptchaTokenPersonal poolToken).2, Except.error "unused"⟩) =
      (.raised "Failed to obtain reCAPTCHA token", ⟨1, 0, [], 0⟩) :=
  ⟨rfl, rfl, rfl⟩

/-- C10 counterexample: from two concurrent `get_token` calls for
different projects, the state in which the project-1 call sits inside
`_create_resident_tab` while holding the pool-wide `_resident_lock` is
reachable, and in that state the project-2 call has no enabled move:
it is blocked while the first project's session is being created,
because creation runs inside the lock-guarded section. -/
theorem C10_counterexample :
    (poolClosure 20 [poolInitDiff]).contains poolBlockedState = true ∧
    poolBlockedState.tasks.get? 0 = some ⟨1, TabPhase.creating, false⟩ ∧
    taskSteps poolBlockedState 1 = [] := by
  decide

/-- C10 (amended): two concurrent `get_token` calls for the same
project with no existing session create exactly one session for it (in
every completed interleaving exactly one call created, and the tab map
holds a single entry); but a concurrent call for a different project
is blocked while the first project's creation holds the pool-wide
lock, and becomes able to proceed only once that creation completes
and releases the lock. -/
theorem C10_pool_serialization :
    (((poolClosure 20 [poolInitSame]).filter allDone ≠ []) ∧
     ((poolClosure 20 [poolInitSame]).filter allDone).all
       (fun s => createdCount s 1 == 1 && s.tabs == [1]) = true) ∧
    ((poolClosure 20 [poolInitDiff]).contains poolBlockedState = true ∧
     taskSteps poolBlockedState 1 = [] ∧
     (taskSteps poolBlockedState 0).all
       (fun s' => !(taskSteps s' 1).isEmpty) = true) := by
  decide

end Flow2API
